import Mathlib

/-!
Shallow embedding of the artifact-retrieval and dataset-bootstrap subsystem
of the repository (src/utils/downloads.py and
src/utils/datasets/create_dataloader.py), together with theorems settling
the specification claims about it.

File sizes are modelled as `Nat` (Python `st_size` is a nonnegative int;
the thresholds `1e0` and `1e5` are the exact integers 1 and 100000).
Effectful calls (the two transports, the filesystem, the release registry)
are modelled by passing their observable outcome as an explicit parameter,
so every definition is executable.
-/

namespace Spec2Proof

/-! ## DownloadEngine: src/utils/downloads.py -/

/-- Outcome of the primary transport `torch.hub.download_url_to_file`:
either it returns normally having written a file of the given size, or it
raises, leaving the destination in some state (absent, or a partial file
of some size). -/
inductive TransportResult where
  | ok (size : Nat)
  | err (fileAfter : Option Nat)
deriving DecidableEq, Repr

/-- Observable outcome of one invocation of the `curl` subprocess
(`subprocess.run` in `curl_download`, lines 68-95): the state of the
destination file afterwards, and the process return code. -/
structure CurlResult where
  fileAfter : Option Nat
  returncode : Int
deriving DecidableEq, Repr

/-- `curl_download` (src/utils/downloads.py lines 68-95): runs curl and
returns `proc.returncode == 0`. -/
def curl_download (r : CurlResult) : Bool :=
  r.returncode == 0

/-- What `safe_download` leaves behind when control exits the function:
the destination file's state on disk, whether the final validation in the
`finally` block logged the failure message, and whether the fallback
transport was invoked. -/
structure FetchOutcome where
  finalFile : Option Nat
  finalErrorLogged : Bool
  fallbackAttempted : Bool
deriving DecidableEq, Repr

/-- `safe_download` (src/utils/downloads.py lines 98-136).

`try`: the primary transport runs; on normal return the assert checks
`file.exists() and file.stat().st_size > min_bytes` (strict `>`).
`except`: any exception (transport error or failed assert) deletes the
partial file if present and invokes `curl_download(url2 or url, file)`,
whose boolean result is discarded; `curl.fileAfter` is the file state it
leaves. `finally` (runs on every exit path, including an exception raised
by the fallback itself): if the file is absent or its size is strictly
below `min_bytes` the partial file is deleted and the error message is
logged. -/
def safe_download (primary : TransportResult) (curl : CurlResult)
    (min_bytes : Nat) : FetchOutcome :=
  let afterTry : Option Nat × Bool :=
    match primary with
    | .ok s =>
      if min_bytes < s then
        (some s, false)
      else
        -- assert fails: except branch unlinks the file, then curl runs;
        -- `curl_download`'s return value is discarded
        let _ := curl_download curl
        (curl.fileAfter, true)
    | .err _ =>
      -- except branch: unlink partial file if present, then curl runs
      let _ := curl_download curl
      (curl.fileAfter, true)
  match afterTry with
  | (none, fb) => ⟨none, true, fb⟩
  | (some s, fb) =>
    if s < min_bytes then ⟨none, true, fb⟩
    else ⟨some s, false, fb⟩

/-! ## Python string/path semantics used by `attempt_download`

`attempt_download` manipulates its argument with `str.strip`,
`str.replace`, `pathlib.Path` (whose `str` normalises a POSIX path:
collapses repeated separators, drops `.` components and trailing
separators) and `urllib.parse.unquote`. -/

/-- Whitespace characters removed by Python `str.strip()`. -/
def pySpace (c : Char) : Bool :=
  c = ' ' || c = '\t' || c = '\n' || c = '\r' || c = '\x0b' || c = '\x0c'

/-- Python `str.strip()`: drop leading and trailing whitespace. -/
def pyStrip (s : String) : String :=
  String.mk (((s.data.dropWhile pySpace).reverse.dropWhile pySpace).reverse)

/-- `str.replace("'", "")`: drop every single-quote character. -/
def removeSingleQuotes (s : String) : String :=
  String.mk (s.data.filter (fun c => c ≠ '\x27'))

/-- Python `str.startswith(pre)`. -/
def pyStartsWith (s pre : String) : Bool :=
  pre.data.isPrefixOf s.data

/-- Left-to-right, non-overlapping replacement of `pat` by `rep`, one
step per unit of fuel; with fuel at least the input length this is
Python `str.replace` for a non-empty pattern. -/
def pyReplaceAux (pat rep : List Char) : Nat → List Char → List Char
  | _, [] => []
  | 0, l => l
  | fuel + 1, c :: rest =>
    if pat.isPrefixOf (c :: rest) then
      rep ++ pyReplaceAux pat rep fuel (List.drop (pat.length - 1) rest)
    else
      c :: pyReplaceAux pat rep fuel rest

/-- Python `s.replace(pat, rep)` (non-empty `pat`). -/
def pyReplace (s pat rep : String) : String :=
  String.mk (pyReplaceAux pat.data rep.data s.data.length s.data)

/-- Split a character list on a separator character; like Python
`str.split(sep)`, adjacent separators yield empty pieces. -/
def splitCharAux (sep : Char) (acc : List Char) :
    List Char → List (List Char)
  | [] => [acc.reverse]
  | c :: rest =>
    if c = sep then acc.reverse :: splitCharAux sep [] rest
    else splitCharAux sep (c :: acc) rest

/-- The path components `pathlib.PurePosixPath` keeps: splitting on `/`,
empty components and `.` are dropped. -/
def posixComponents (s : String) : List String :=
  ((splitCharAux '/' [] s.data).map String.mk).filter
    (fun c => c != "" && c != ".")

/-- The root prefix `pathlib.PurePosixPath` keeps: exactly two leading
slashes are preserved as `//`, any other number collapses to `/`. -/
def posixRoot (s : String) : String :=
  if ['/', '/', '/'].isPrefixOf s.data then "/"
  else if ['/', '/'].isPrefixOf s.data then "//"
  else if ['/'].isPrefixOf s.data then "/"
  else ""

/-- Join path components with `/`. -/
def joinSlash : List String → String
  | [] => ""
  | [x] => x
  | x :: rest => x ++ "/" ++ joinSlash rest

/-- `str(pathlib.Path(s))` on POSIX: root plus `/`-joined components,
`"."` for an empty path. -/
def posixPathStr (s : String) : String :=
  let comps := posixComponents s
  let root := posixRoot s
  if root = "" ∧ comps = [] then "."
  else root ++ joinSlash comps

/-- `pathlib.Path(s).name`: the final path component (empty for a bare
root or empty path). -/
def posixName (s : String) : String :=
  ((posixComponents s).getLast?).getD ""

/-- Value of a hexadecimal digit character, `none` if not a hex digit
(both cases accepted, as in `urllib.parse.unquote`). -/
def hexDigitVal (c : Char) : Option Nat :=
  if c.isDigit then some (c.toNat - 48)
  else if 97 ≤ c.toNat ∧ c.toNat ≤ 102 then some (c.toNat - 87)
  else if 65 ≤ c.toNat ∧ c.toNat ≤ 70 then some (c.toNat - 55)
  else none

/-- Character-level percent-decoding: a `%` followed by two hex digits
becomes the character with that code; an invalid escape is left as-is. -/
def unquoteChars : List Char → List Char
  | '%' :: a :: b :: rest =>
    match hexDigitVal a, hexDigitVal b with
    | some ha, some hb => Char.ofNat (16 * ha + hb) :: unquoteChars rest
    | _, _ => '%' :: unquoteChars (a :: b :: rest)
  | c :: rest => c :: unquoteChars rest
  | [] => []

/-- `urllib.parse.unquote` restricted to single-byte escapes. -/
def unquote (s : String) : String :=
  String.mk (unquoteChars s.data)

/-! ## ArtifactResolver: `attempt_download` (src/utils/downloads.py 139-215) -/

/-- Successful result of the nested `github_assets` helper (lines
158-178): the release `tag_name` and the names of its assets. -/
structure RegistryResult where
  tag : String
  assets : List String
deriving DecidableEq, Repr

/-- The lookups `attempt_download` may perform while resolving a release
tag, in source order: `github_assets(repo, release)` (line 196),
`github_assets(repo)` (line 199), and the local `git tag` subprocess
(line 202). Only the first two touch the network. -/
inductive RegistryQuery where
  | taggedRelease
  | latestRelease
  | localGitTag
deriving DecidableEq, Repr

/-- Arguments of one call to `safe_download` issued by
`attempt_download`. -/
structure SafeDownloadCall where
  file : String
  url : String
  url2 : Option String
  min_bytes : Nat
  error_msg : String
deriving DecidableEq, Repr

/-- Observable outcome of `attempt_download`: the returned path, the
`safe_download` calls issued, the tag lookups performed, and whether the
parent directory was created (line 207). -/
structure ResolveOutcome where
  result : String
  downloads : List SafeDownloadCall
  queries : List RegistryQuery
  madeParentDir : Bool
deriving DecidableEq, Repr

/-- The effectful context `attempt_download` runs in: a filesystem
oracle for `Path.exists` / `Path.is_file`, the outcome of each
`github_assets` call (`none` when it raises), and the whitespace tokens
of the `git tag` output (`none` when the subprocess raises). -/
structure ResolveEnv where
  fileExists : String → Bool
  taggedRelease : Option RegistryResult
  latestRelease : Option RegistryResult
  gitTagTokens : Option (List String)

/-- Line 194: the default asset list, the cross product
`yolov5{size}{suffix}.pt` for size in `nsmlx`, suffix in
`("", "6", "-cls", "-seg")`. -/
def defaultAssets : List String :=
  ("nsmlx".data).flatMap (fun size =>
    ["", "6", "-cls", "-seg"].map (fun suffix =>
      "yolov5" ++ String.mk [size] ++ suffix ++ ".pt"))

/-- The release-tag fallback chain of `attempt_download` (lines
195-204): `github_assets(repo, release)`, then `github_assets(repo)`,
then the last whitespace token of `git tag` (an empty token list makes
`[-1]` raise, caught like a failed subprocess), then the `release`
argument. Returns the resolved tag, the asset list in effect (the
default list survives when both `github_assets` calls fail), and the
lookups performed in order. -/
def releaseFallback (env : ResolveEnv) (release : String) :
    String × List String × List RegistryQuery :=
  match env.taggedRelease with
  | some r => (r.tag, r.assets, [RegistryQuery.taggedRelease])
  | none =>
    match env.latestRelease with
    | some r =>
      (r.tag, r.assets,
       [RegistryQuery.taggedRelease, RegistryQuery.latestRelease])
    | none =>
      let t :=
        match env.gitTagTokens.bind List.getLast? with
        | some t => t
        | none => release
      (t, defaultAssets,
       [RegistryQuery.taggedRelease, RegistryQuery.latestRelease,
        RegistryQuery.localGitTag])

/-- `attempt_download` (src/utils/downloads.py lines 139-215).

Line 180 sanitises the spec: `Path(str(file).strip().replace("'", ""))`.
If that path exists the function body is skipped and `str(file)` is
returned (lines 181, 215). Otherwise `name` is the basename of the
percent-decoded path (line 183). A spec starting with `http:/` or
`https:/` is treated as a URL (lines 184-191): the `://` lost to `Path`
is restored with `str.replace`, the local name drops everything from the
first `?`, an existing local file short-circuits, else
`safe_download(file=file, url=url, min_bytes=1e5)` runs; the local name
is returned. A bare name goes through the tag fallback chain (lines
194-204): tagged lookup, then latest, then the last whitespace token of
`git tag` (an empty token list makes `[-1]` raise, caught like a failed
subprocess), then the `release` argument; on any `github_assets` failure
the asset list stays `defaultAssets`. If `name` is among the assets the
parent directory is created and `safe_download` is called on the
templated URL (lines 206-213); in every bare case `str(file)` is
returned (line 215). -/
def attempt_download (env : ResolveEnv) (fileSpec repo release : String) :
    ResolveOutcome :=
  let file := posixPathStr (removeSingleQuotes (pyStrip fileSpec))
  if env.fileExists file then
    ⟨file, [], [], false⟩
  else
    let name := posixName (unquote file)
    if pyStartsWith file "http:/" || pyStartsWith file "https:/" then
      let url := pyReplace file ":/" "://"
      -- name.split("?")[0]: everything before the first question mark
      let f := String.mk (name.data.takeWhile (fun c => c != '?'))
      if env.fileExists f then
        ⟨f, [], [], false⟩
      else
        ⟨f, [⟨f, url, none, 100000, ""⟩], [], false⟩
    else
      let fallback := releaseFallback env release
      let tag := fallback.1
      let assets := fallback.2.1
      let queries := fallback.2.2
      if name ∈ assets then
        ⟨file,
         [⟨file,
           "https://github.com/" ++ repo ++ "/releases/download/" ++ tag
             ++ "/" ++ name,
           none, 100000,
           file ++ " missing, try downloading from https://github.com/"
             ++ repo ++ "/releases/" ++ tag⟩],
         queries, true⟩
      else
        ⟨file, [], queries, false⟩

/-! ## DatasetBootstrap: `create_dataloader`
(src/utils/datasets/create_dataloader.py lines 14-56) -/

/-- The two observable side effects of `create_dataloader` before the
loader is assembled, in program order: the rect/shuffle warning (line 24)
and the dataset construction inside the barrier (lines 28-43). -/
inductive BootstrapEvent where
  | warnRectShuffle
  | constructDataset
deriving DecidableEq, Repr

/-- Arguments given to `distributed.DistributedSampler(dataset, ...)`
(line 48): only the `shuffle` keyword is passed. -/
structure DistributedSamplerArgs where
  shuffle : Bool
deriving DecidableEq, Repr

/-- The loader configuration handed to `DataLoader` /
`InfiniteDataLoader` (lines 45-56). -/
structure LoaderConfig where
  batch_size : Int
  num_workers : Int
  sampler : Option DistributedSamplerArgs
  shuffle : Bool
  pin_memory : Bool
  quadCollate : Bool
  infiniteLoader : Bool
deriving DecidableEq, Repr

/-- `create_dataloader` (src/utils/datasets/create_dataloader.py).

Host characteristics (`os.cpu_count()`, `torch.cuda.device_count()`) and
the dataset length are passed explicitly; Python integers are `Int` and
`//` is floor division (`Int.fdiv`). Line 23-25: if `rect and shuffle`, a
warning is logged and `shuffle` is reassigned `False`. Lines 28-43: the
dataset is constructed (inside the barrier). Line 45:
`batch_size = min(batch_size, len(dataset))`. Line 47:
`nw = min([cpu // max(nd, 1), batch_size if batch_size > 1 else 0,
workers])`. Line 48: `sampler = None if rank == -1 else
DistributedSampler(dataset, shuffle=shuffle)`. Line 49: a plain
`DataLoader` is used when `image_weights` else `InfiniteDataLoader`.
Lines 50-56: the loader receives `shuffle=shuffle and sampler is None`,
`pin_memory=True` and `collate_fn4 if quad else collate_fn`. -/
def create_dataloader (cpu_count device_count datasetLen : Int)
    (batch_size : Int) (rank : Int) (workers : Int)
    (rect shuffle image_weights quad : Bool) :
    LoaderConfig × List BootstrapEvent :=
  let events := if rect && shuffle then [BootstrapEvent.warnRectShuffle] else []
  let shuffle := if rect && shuffle then false else shuffle
  let events := events ++ [BootstrapEvent.constructDataset]
  let bs := min batch_size datasetLen
  let nw := min (min (Int.fdiv cpu_count (max device_count 1))
                     (if 1 < bs then bs else 0)) workers
  let sampler := if rank == -1 then none
                 else some (DistributedSamplerArgs.mk shuffle)
  (⟨bs, nw, sampler, shuffle && sampler.isNone, true, quad,
    !image_weights⟩,
   events)

/-! ## DistributedBarrier -/

/-- Atomic actions a process may take around the barrier: run the
guarded (dataset-construction) work, signal the exit barrier, block on
the exit barrier, or proceed with the process's own follow-up work on
the guarded resource. -/
inductive BarrierAction where
  | runGuarded
  | barrierSignal
  | barrierWait
  | localWork
deriving DecidableEq, Repr

/-- Modelled from the spec: `torch_distributed_zero_first` is imported
from `utils/torch_utils.py`, which is not part of this source slice;
§4.3 of the spec gives its contract. Per-rank action sequence: rank -1
(no distributed group) runs the guarded work immediately with no
coordination; rank 0 runs the guarded work and then signals the exit
barrier; every rank > 0 blocks on the barrier before proceeding to its
own work on the guarded resource. -/
def torch_distributed_zero_first (rank : Int) : List BarrierAction :=
  if rank = -1 then [BarrierAction.runGuarded]
  else if rank = 0 then [BarrierAction.runGuarded, BarrierAction.barrierSignal]
  else [BarrierAction.barrierWait, BarrierAction.localWork]

/-- Global state of a process group of size `n + 1` (ranks `0..n`)
executing `torch_distributed_zero_first`: each process's position in its
action sequence, whether rank 0 has signalled the exit barrier, and a
counter of guarded-work executions (the test double of the spec's §8
scenario). -/
structure BarrierSys (n : Nat) where
  pc : Fin (n + 1) → Nat
  signalled : Bool
  guardedRuns : Nat

/-- The action sequence of the process with the given rank. -/
def rankProgram (n : Nat) (r : Fin (n + 1)) : List BarrierAction :=
  torch_distributed_zero_first (r.val : Int)

/-- Initial state: every process at the start of its sequence, barrier
not signalled, guarded work not yet run. -/
def BarrierSys.init (n : Nat) : BarrierSys n :=
  ⟨fun _ => 0, false, 0⟩

/-- Effect of process `r` performing action `a`: its pc advances;
`barrierSignal` raises the signal flag; `runGuarded` bumps the
execution counter. -/
def BarrierSys.apply {n : Nat} (s : BarrierSys n) (r : Fin (n + 1))
    (a : BarrierAction) : BarrierSys n :=
  { pc := Function.update s.pc r (s.pc r + 1)
    signalled := s.signalled || (a == BarrierAction.barrierSignal)
    guardedRuns :=
      s.guardedRuns + (if a = BarrierAction.runGuarded then 1 else 0) }

/-- Interleaving semantics: any process whose next action is enabled may
step; `barrierWait` is enabled only once rank 0 has signalled (a blocked
follower cannot pass the barrier). -/
inductive BarrierStep (n : Nat) : BarrierSys n → BarrierSys n → Prop where
  | mk (s : BarrierSys n) (r : Fin (n + 1)) (a : BarrierAction)
      (ha : (rankProgram n r).get? (s.pc r) = some a)
      (hwait : a = BarrierAction.barrierWait → s.signalled = true) :
      BarrierStep n s (s.apply r a)

/-- States reachable from the initial state under any interleaving. -/
def BarrierReachable (n : Nat) (s : BarrierSys n) : Prop :=
  Relation.ReflTransGen (BarrierStep n) (BarrierSys.init n) s

/-- Inductive invariant of the barrier system: the guarded-run counter
tracks whether rank 0 has started; the signal flag tracks whether rank 0
has finished both its actions; and a follower that has moved past its
wait has seen the signal. -/
def BarrierInv (n : Nat) (s : BarrierSys n) : Prop :=
  (s.guardedRuns = if s.pc 0 = 0 then 0 else 1)
  ∧ (s.signalled = true ↔ 2 ≤ s.pc 0)
  ∧ (∀ r : Fin (n + 1), r ≠ 0 → s.pc r ≠ 0 → s.signalled = true)

/-! ## Theorems -/

/-- C1: for every call to `safe_download` with `min_bytes > 0`, on every
exit path — primary transport success, size-rejected primary, fallback
transport, or an exception from either transport — if the destination
file is smaller than `min_bytes` when control leaves the function, the
file is not present on disk; equivalently, any file still present is at
least `min_bytes` bytes. -/
theorem safe_download_no_truncated_file (p : TransportResult)
    (c : CurlResult) (m : Nat) (_hm : 0 < m) (s : Nat)
    (hs : (safe_download p c m).finalFile = some s) : m ≤ s := by
  unfold safe_download at hs
  rcases p with sz | f
  · by_cases h1 : m < sz
    · simp only [if_pos h1] at hs
      by_cases h2 : sz < m
      · simp [h2] at hs
      · simp [h2] at hs
        omega
    · simp only [if_neg h1] at hs
      rcases hc : c.fileAfter with _ | t
      · simp [hc] at hs
      · simp only [hc] at hs
        by_cases h2 : t < m
        · simp [h2] at hs
        · simp [h2] at hs
          omega
  · rcases hc : c.fileAfter with _ | t
    · simp [hc] at hs
    · simp only [hc] at hs
      by_cases h2 : t < m
      · simp [h2] at hs
      · simp [h2] at hs
        omega

/-- Witness for C1 at a concrete input: the primary transport writes 5
bytes with threshold 3, and the surviving file is at least 3 bytes. -/
theorem safe_download_no_truncated_file_witness : 3 ≤ 5 :=
  safe_download_no_truncated_file (TransportResult.ok 5) ⟨none, 0⟩ 3
    (by decide) 5 rfl

/-- C9: the two validations of `safe_download` use different thresholds
— the primary check demands size strictly greater than `min_bytes`, the
final check deletes only files strictly smaller — so a primary transfer
of exactly `min_bytes` bytes triggers the fallback transport, yet when
the fallback reproduces a file of exactly `min_bytes` bytes the final
validation accepts it: the function returns with the file present and no
final error logged. A primary transfer of one byte more is accepted
outright with no fallback. -/
theorem safe_download_threshold_boundary :
    (∀ (m : Nat) (rc : Int),
       safe_download (TransportResult.ok m) ⟨some m, rc⟩ m =
         ⟨some m, false, true⟩)
    ∧ (∀ (m : Nat) (c : CurlResult),
       safe_download (TransportResult.ok (m + 1)) c m =
         ⟨some (m + 1), false, false⟩) := by
  constructor
  · intro m rc
    unfold safe_download
    simp
  · intro m c
    unfold safe_download
    simp

/-- C10: `safe_download` discards `curl_download`'s boolean result: the
outcome depends only on the file the fallback left behind, never on the
curl return code; in particular a fallback invocation whose return code
reports failure but which leaves a file of at least `min_bytes` on disk
is treated as success (file kept, no final error logged). -/
theorem safe_download_ignores_curl_status :
    (∀ (p : TransportResult) (f : Option Nat) (rc₁ rc₂ : Int) (m : Nat),
       safe_download p ⟨f, rc₁⟩ m = safe_download p ⟨f, rc₂⟩ m)
    ∧ (∀ (s m : Nat) (rc : Int),
       curl_download ⟨some s, rc⟩ = false → m ≤ s →
       safe_download (TransportResult.err none) ⟨some s, rc⟩ m =
         ⟨some s, false, true⟩) := by
  constructor
  · intro p f rc₁ rc₂ m
    cases p <;> rfl
  · intro s m rc _hcurl hms
    unfold safe_download
    simp [Nat.not_lt.mpr hms]

/-- Witness for C10 at a concrete input: curl exits with code 1
(reported failure) leaving a 5-byte file against a 3-byte threshold; the
file is kept and no final error is logged. -/
theorem safe_download_ignores_curl_status_witness :
    safe_download (TransportResult.err none) ⟨some 5, 1⟩ 3 =
      ⟨some 5, false, true⟩ :=
  safe_download_ignores_curl_status.2 5 3 1 (by decide) (by decide)

/-- C5: for every bootstrap call with `workerCeiling ≥ 0` and a
non-empty dataset, the derived configuration satisfies
`batchSize = min(requestedBatchSize, datasetLength)`,
`workerCount ≥ 0`, and `workerCount ≤ min(hostCPUCount / max(deviceCount, 1),
batchSize if batchSize > 1 else 0, workerCeiling)`. -/
theorem create_dataloader_worker_invariants
    (cpu nd len bs rank w : Int) (rect shuffle iw quad : Bool)
    (hcpu : 0 ≤ cpu) (hw : 0 ≤ w) (_hlen : 0 < len) :
    ((create_dataloader cpu nd len bs rank w rect shuffle iw quad).1.batch_size
       = min bs len)
    ∧ 0 ≤ (create_dataloader cpu nd len bs rank w rect shuffle iw quad).1.num_workers
    ∧ (create_dataloader cpu nd len bs rank w rect shuffle iw quad).1.num_workers
        ≤ min (min (Int.fdiv cpu (max nd 1))
                   (if 1 < (create_dataloader cpu nd len bs rank w rect
                              shuffle iw quad).1.batch_size
                    then (create_dataloader cpu nd len bs rank w rect
                            shuffle iw quad).1.batch_size
                    else 0))
              w := by
  have hb : (create_dataloader cpu nd len bs rank w rect shuffle iw
      quad).1.batch_size = min bs len := by
    simp [create_dataloader]
  have hn : (create_dataloader cpu nd len bs rank w rect shuffle iw
      quad).1.num_workers =
      min (min (Int.fdiv cpu (max nd 1))
               (if 1 < min bs len then min bs len else 0)) w := by
    simp [create_dataloader]
  refine ⟨hb, ?_, ?_⟩
  · rw [hn]
    refine le_min (le_min ?_ ?_) hw
    · exact Int.fdiv_nonneg hcpu
        (le_trans zero_le_one (le_max_right nd 1))
    · by_cases h1 : 1 < min bs len
      · rw [if_pos h1]; omega
      · rw [if_neg h1]
  · rw [hn, hb]

/-- Witness for C5 at a concrete input: 8 CPUs, 2 devices, a dataset of
100 samples, requested batch 16, 8 workers. -/
theorem create_dataloader_worker_invariants_witness :
    ((create_dataloader 8 2 100 16 (-1) 8 false false false
        false).1.batch_size = min 16 100)
    ∧ 0 ≤ (create_dataloader 8 2 100 16 (-1) 8 false false false
        false).1.num_workers
    ∧ (create_dataloader 8 2 100 16 (-1) 8 false false false
        false).1.num_workers
        ≤ min (min (Int.fdiv 8 (max 2 1))
                   (if 1 < (create_dataloader 8 2 100 16 (-1) 8 false
                              false false false).1.batch_size
                    then (create_dataloader 8 2 100 16 (-1) 8 false
                            false false false).1.batch_size
                    else 0))
              8 :=
  create_dataloader_worker_invariants 8 2 100 16 (-1) 8 false false
    false false (by decide) (by decide) (by decide)

/-- C7: the sampler is `None` exactly for `rank = -1` and a
`DistributedSampler` for every `rank ≥ 0`; whenever a sampler is present
the shuffle flag passed to the iteration layer is `false`, regardless of
the caller's `shuffle` argument. -/
theorem create_dataloader_sampler_choice
    (cpu nd len bs w : Int) (rect shuffle iw quad : Bool) :
    ((create_dataloader cpu nd len bs (-1) w rect shuffle iw
        quad).1.sampler = none)
    ∧ (∀ r : Nat,
        ((create_dataloader cpu nd len bs (r : Int) w rect shuffle iw
            quad).1.sampler).isSome = true)
    ∧ (∀ rank : Int,
        ((create_dataloader cpu nd len bs rank w rect shuffle iw
            quad).1.sampler).isSome = true →
        (create_dataloader cpu nd len bs rank w rect shuffle iw
            quad).1.shuffle = false) := by
  refine ⟨?_, ?_, ?_⟩
  · simp [create_dataloader]
  · intro r
    have hr : ((r : Int) == -1) = false := by
      simp only [beq_eq_false_iff_ne, ne_eq]
      omega
    simp [create_dataloader, hr]
  · intro rank h
    by_cases hr : (rank == -1) = true
    · simp [create_dataloader, hr] at h
    · simp only [Bool.not_eq_true] at hr
      simp [create_dataloader, hr]

/-- Witness for C7 at a concrete input: at rank 0 a sampler is present
and the shuffle flag handed to the loader is `false` even though the
caller asked for `shuffle = true`. -/
theorem create_dataloader_sampler_choice_witness :
    (create_dataloader 8 1 100 16 0 8 false true false
        false).1.shuffle = false :=
  (create_dataloader_sampler_choice 8 1 100 16 8 false true false
      false).2.2 0 (by decide)

/-- C8: when both `shuffle = true` and `rect = true` are requested, the
effective shuffle is forced to `false` (for the loader and for any
sampler) and the warning is logged before any dataset construction. -/
theorem create_dataloader_rect_shuffle
    (cpu nd len bs rank w : Int) (iw quad : Bool) :
    ((create_dataloader cpu nd len bs rank w true true iw quad).2 =
       [BootstrapEvent.warnRectShuffle, BootstrapEvent.constructDataset])
    ∧ ((create_dataloader cpu nd len bs rank w true true iw
          quad).1.shuffle = false)
    ∧ ((create_dataloader cpu nd len bs rank w true true iw
          quad).1.sampler = none
       ∨ (create_dataloader cpu nd len bs rank w true true iw
          quad).1.sampler = some ⟨false⟩) := by
  refine ⟨?_, ?_, ?_⟩
  · simp [create_dataloader]
  · simp [create_dataloader]
  · by_cases hr : (rank == -1) = true
    · left; simp [create_dataloader, hr]
    · right
      simp only [Bool.not_eq_true] at hr
      simp [create_dataloader, hr]

/-- C6: for a fileSpec that is a URL (`http:/`/`https:/` after path
sanitisation) and does not name an existing local file, the local name
is derived by percent-decoding, taking the basename and stripping query
parameters; an existing file of that name is returned with no download,
otherwise `safe_download` is invoked with `min_bytes = 100000` and no
alternate URL, and the derived name is returned. -/
theorem attempt_download_url_branch
    (env : ResolveEnv) (fileSpec repo release file nm : String)
    (hfile : file = posixPathStr (removeSingleQuotes (pyStrip fileSpec)))
    (hname : nm = String.mk
       ((posixName (unquote file)).data.takeWhile (fun c => c != '?')))
    (hnex : env.fileExists file = false)
    (hurl : (pyStartsWith file "http:/" || pyStartsWith file "https:/")
              = true) :
    (env.fileExists nm = true →
       attempt_download env fileSpec repo release = ⟨nm, [], [], false⟩)
    ∧ (env.fileExists nm = false →
       attempt_download env fileSpec repo release =
         ⟨nm, [⟨nm, pyReplace file ":/" "://", none, 100000, ""⟩], [],
          false⟩) := by
  subst hname
  subst hfile
  unfold attempt_download
  simp only [hnex, hurl, Bool.false_eq_true, if_false, if_true]
  constructor
  · intro h
    simp [h]
  · intro h
    simp [h]

/-- Witness for C6 at a concrete input: no local files exist and the
URL `https://host/f.bin` is fetched to the derived name `f.bin` with
threshold 100000 and no alternate URL. -/
theorem attempt_download_url_branch_witness :
    attempt_download ⟨fun _ => false, none, none, none⟩
        "https://host/f.bin" "org/repo" "v7.0" =
      ⟨"f.bin", [⟨"f.bin", "https://host/f.bin", none, 100000, ""⟩], [],
       false⟩ := by
  have h := (attempt_download_url_branch
      ⟨fun _ => false, none, none, none⟩ "https://host/f.bin" "org/repo"
      "v7.0" "https:/host/f.bin" "f.bin" (by decide) (by decide) rfl
      (by decide)).2 rfl
  exact h

/-- C3: for a bare fileSpec the registry is consulted in the fixed
fallback order (named tag, then latest release, then local `git tag`,
then the static default); when every lookup fails the candidate asset
list is exactly the 20-name cross product
`yolov5{n,s,m,l,x}{"", "6", "-cls", "-seg"}.pt`, so resolving
`yolov5s.pt` in that situation downloads from the URL templated with
repository id, default tag, and asset name. -/
theorem attempt_download_fallback_chain :
    (∀ (env : ResolveEnv) (fileSpec repo release file : String),
       file = posixPathStr (removeSingleQuotes (pyStrip fileSpec)) →
       env.fileExists file = false →
       (pyStartsWith file "http:/" || pyStartsWith file "https:/")
           = false →
       (attempt_download env fileSpec repo release).queries =
         (releaseFallback env release).2.2)
    ∧ (∀ (env : ResolveEnv) (release : String),
       (env.taggedRelease.isSome = true →
          (releaseFallback env release).2.2 = [RegistryQuery.taggedRelease])
       ∧ (env.taggedRelease = none → env.latestRelease.isSome = true →
          (releaseFallback env release).2.2 =
            [RegistryQuery.taggedRelease, RegistryQuery.latestRelease])
       ∧ (env.taggedRelease = none → env.latestRelease = none →
          (releaseFallback env release).2.2 =
            [RegistryQuery.taggedRelease, RegistryQuery.latestRelease,
             RegistryQuery.localGitTag]
          ∧ (releaseFallback env release).2.1 = defaultAssets
          ∧ (env.gitTagTokens.bind List.getLast? = none →
             (releaseFallback env release).1 = release)))
    ∧ defaultAssets =
        ["yolov5n.pt", "yolov5n6.pt", "yolov5n-cls.pt", "yolov5n-seg.pt",
         "yolov5s.pt", "yolov5s6.pt", "yolov5s-cls.pt", "yolov5s-seg.pt",
         "yolov5m.pt", "yolov5m6.pt", "yolov5m-cls.pt", "yolov5m-seg.pt",
         "yolov5l.pt", "yolov5l6.pt", "yolov5l-cls.pt", "yolov5l-seg.pt",
         "yolov5x.pt", "yolov5x6.pt", "yolov5x-cls.pt", "yolov5x-seg.pt"]
    ∧ (∀ (fs : String → Bool) (repo release : String),
       fs "yolov5s.pt" = false →
       attempt_download ⟨fs, none, none, none⟩ "yolov5s.pt" repo release =
         ⟨"yolov5s.pt",
          [⟨"yolov5s.pt",
            "https://github.com/" ++ repo ++ "/releases/download/"
              ++ release ++ "/" ++ "yolov5s.pt",
            none, 100000,
            "yolov5s.pt"
              ++ " missing, try downloading from https://github.com/"
              ++ repo ++ "/releases/" ++ release⟩],
          [RegistryQuery.taggedRelease, RegistryQuery.latestRelease,
           RegistryQuery.localGitTag],
          true⟩) := by
  refine ⟨?_, ?_, by decide, ?_⟩
  · intro env fileSpec repo release file hfile hnex hurl
    subst hfile
    unfold attempt_download
    simp only [hnex, hurl, Bool.false_eq_true, if_false]
    split <;> rfl
  · intro env release
    refine ⟨?_, ?_, ?_⟩
    · intro h
      rcases ht : env.taggedRelease with _ | r
      · rw [ht] at h; simp at h
      · unfold releaseFallback
        rw [ht]
    · intro ht hl
      rcases hlat : env.latestRelease with _ | r
      · rw [hlat] at hl; simp at hl
      · unfold releaseFallback
        rw [ht, hlat]
    · intro ht hl
      unfold releaseFallback
      rw [ht, hl]
      refine ⟨rfl, rfl, ?_⟩
      intro hg
      simp [hg]
  · intro fs repo release hfs
    unfold attempt_download
    rw [show posixPathStr (removeSingleQuotes (pyStrip "yolov5s.pt"))
          = "yolov5s.pt" from by decide]
    simp only [hfs, Bool.false_eq_true, if_false]
    rw [show (pyStartsWith "yolov5s.pt" "http:/"
              || pyStartsWith "yolov5s.pt" "https:/") = false from by decide]
    simp only [Bool.false_eq_true, if_false]
    unfold releaseFallback
    simp only [Option.bind]
    rw [show posixName (unquote "yolov5s.pt") = "yolov5s.pt" from by decide]
    rw [if_pos (show "yolov5s.pt" ∈ defaultAssets from by decide)]

/-- Witness for C3 at a concrete input: every filesystem probe and
registry lookup fails, so `yolov5s.pt` is fetched from the templated
GitHub URL at the default tag `v7.0`. -/
theorem attempt_download_fallback_chain_witness :
    attempt_download ⟨fun _ => false, none, none, none⟩ "yolov5s.pt"
        "org/repo" "v7.0" =
      ⟨"yolov5s.pt",
       [⟨"yolov5s.pt",
         "https://github.com/org/repo/releases/download/v7.0/yolov5s.pt",
         none, 100000,
         "yolov5s.pt missing, try downloading from https://github.com/org/repo/releases/v7.0"⟩],
       [RegistryQuery.taggedRelease, RegistryQuery.latestRelease,
        RegistryQuery.localGitTag],
       true⟩ := by
  have h := attempt_download_fallback_chain.2.2.2 (fun _ => false)
    "org/repo" "v7.0" rfl
  exact h

/-- Counterexample for C4 as stated: on a filesystem where
`./yolov5s.pt` (equivalently `yolov5s.pt`) exists, resolving
`./yolov5s.pt` returns the sanitised path `yolov5s.pt`, not the
fileSpec unchanged — line 180 rewrites the spec through
`Path(str(file).strip().replace("'", ""))` before anything else. -/
theorem attempt_download_not_unchanged_counterexample :
    ((fun p => p == "yolov5s.pt" || p == "./yolov5s.pt") "./yolov5s.pt"
       = true)
    ∧ (attempt_download
         ⟨fun p => p == "yolov5s.pt" || p == "./yolov5s.pt", none, none,
          none⟩
         "./yolov5s.pt" "org/repo" "v7.0").result ≠ "./yolov5s.pt"
    ∧ (attempt_download
         ⟨fun p => p == "yolov5s.pt" || p == "./yolov5s.pt", none, none,
          none⟩
         "./yolov5s.pt" "org/repo" "v7.0") =
        ⟨"yolov5s.pt", [], [], false⟩ := by
  decide

/-- C4 as amended: `attempt_download` returns the sanitised fileSpec
(whitespace stripped, single quotes removed, path normalised) rather
than the fileSpec verbatim. When the sanitised path names an existing
file it is returned with no network access (no downloads, no registry
queries); a bare name absent from the resolved candidate asset list
likewise yields the sanitised path with no download and no exception. -/
theorem attempt_download_sanitized_return
    (env : ResolveEnv) (fileSpec repo release file : String)
    (hfile : file = posixPathStr (removeSingleQuotes (pyStrip fileSpec))) :
    (env.fileExists file = true →
       attempt_download env fileSpec repo release = ⟨file, [], [], false⟩)
    ∧ (env.fileExists file = false →
       (pyStartsWith file "http:/" || pyStartsWith file "https:/")
           = false →
       posixName (unquote file) ∉ (releaseFallback env release).2.1 →
       attempt_download env fileSpec repo release =
         ⟨file, [], (releaseFallback env release).2.2, false⟩) := by
  subst hfile
  constructor
  · intro h
    unfold attempt_download
    simp [h]
  · intro h hurl habs
    unfold attempt_download
    simp only [h, hurl, Bool.false_eq_true, if_false]
    rw [if_neg habs]

/-- Witness for C4's amended claim at a concrete input: a filesystem
where `yolov5s.pt` exists; resolving the padded spec `" yolov5s.pt"`
returns the sanitised name with no downloads and no registry queries. -/
theorem attempt_download_sanitized_return_witness :
    attempt_download ⟨fun p => p == "yolov5s.pt", none, none, none⟩
        " yolov5s.pt" "org/repo" "v7.0" =
      ⟨"yolov5s.pt", [], [], false⟩ :=
  (attempt_download_sanitized_return
      ⟨fun p => p == "yolov5s.pt", none, none, none⟩ " yolov5s.pt"
      "org/repo" "v7.0" "yolov5s.pt" (by decide)).1 (by decide)

/-- Rank 0's action sequence: guarded work, then the exit signal. -/
theorem rankProgram_zero (n : Nat) :
    rankProgram n 0 =
      [BarrierAction.runGuarded, BarrierAction.barrierSignal] := by
  simp [rankProgram, torch_distributed_zero_first]

/-- A follower's action sequence: wait on the barrier, then proceed. -/
theorem rankProgram_pos (n : Nat) (r : Fin (n + 1)) (hr : r ≠ 0) :
    rankProgram n r =
      [BarrierAction.barrierWait, BarrierAction.localWork] := by
  have hv : r.val ≠ 0 := by
    intro h
    exact hr (Fin.ext (by simpa using h))
  unfold rankProgram torch_distributed_zero_first
  rw [if_neg (by omega), if_neg (by omega)]

/-- The barrier invariant is preserved by every step. -/
theorem barrierInv_apply {n : Nat} {s t : BarrierSys n}
    (h : BarrierStep n s t) (hs : BarrierInv n s) : BarrierInv n t := by
  obtain ⟨h1, h2, h3⟩ := hs
  rcases h with ⟨r, a, ha, hwait⟩
  by_cases hr : r = 0
  · subst hr
    rw [rankProgram_zero] at ha
    rcases hpc : s.pc 0 with _ | m
    · rw [hpc] at ha
      simp only [List.get?] at ha
      injection ha with ha
      subst ha
      have hrun : s.guardedRuns = 0 := by rw [h1, hpc]; rfl
      have hsig : s.signalled = false := by
        rcases hb : s.signalled
        · rfl
        · have := h2.mp hb
          omega
      refine ⟨?_, ?_, ?_⟩
      · simp [BarrierSys.apply, Function.update_same, hpc, hrun]
      · simp [BarrierSys.apply, Function.update_same, hpc, hsig]
      · intro q hq hpq
        simp only [BarrierSys.apply, Function.update_noteq hq] at hpq
        have := h3 q hq hpq
        rw [hsig] at this
        exact absurd this (by simp)
    · rcases m with _ | m
      · rw [hpc] at ha
        simp only [List.get?] at ha
        injection ha with ha
        subst ha
        have hrun : s.guardedRuns = 1 := by rw [h1, if_neg (by omega)]
        refine ⟨?_, ?_, ?_⟩
        · simp [BarrierSys.apply, Function.update_same, hpc, hrun]
        · simp [BarrierSys.apply, Function.update_same, hpc]
        · intro q hq hpq
          simp [BarrierSys.apply]
      · rw [hpc] at ha
        simp at ha
  · rw [rankProgram_pos n r hr] at ha
    rcases hpc : s.pc r with _ | m
    · rw [hpc] at ha
      simp only [List.get?] at ha
      injection ha with ha
      subst ha
      have hsig : s.signalled = true := hwait rfl
      refine ⟨?_, ?_, ?_⟩
      · simpa [BarrierSys.apply, Function.update_noteq (Ne.symm hr)]
          using h1
      · simp only [BarrierSys.apply,
          Function.update_noteq (Ne.symm hr)]
        simpa using h2
      · intro q hq hpq
        simp [BarrierSys.apply, hsig]
    · rcases m with _ | m
      · rw [hpc] at ha
        simp only [List.get?] at ha
        injection ha with ha
        subst ha
        have hsig : s.signalled = true := h3 r hr (by omega)
        refine ⟨?_, ?_, ?_⟩
        · simpa [BarrierSys.apply, Function.update_noteq (Ne.symm hr)]
            using h1
        · simp only [BarrierSys.apply,
            Function.update_noteq (Ne.symm hr)]
          simpa using h2
        · intro q hq hpq
          simp [BarrierSys.apply, hsig]
      · rw [hpc] at ha
        simp at ha

/-- Every reachable state of the barrier system satisfies the
invariant. -/
theorem barrierInv_reachable (n : Nat) {s : BarrierSys n}
    (h : BarrierReachable n s) : BarrierInv n s := by
  unfold BarrierReachable at h
  induction h with
  | refl =>
    exact ⟨by simp [BarrierSys.init], by simp [BarrierSys.init],
      fun r hr hp => absurd rfl hp⟩
  | tail _ hbc ih => exact barrierInv_apply hbc ih

/-- C2: under every interleaving of a process group of any size, the
guarded dataset-construction work runs at most once, has already run
exactly once by the time any follower (rank > 0) moves past its barrier
wait, and has run exactly once when every process has finished; a
process with rank -1 executes the guarded work immediately, with no
barrier actions and no group-size dependency. -/
theorem zero_first_guarded_work_once :
    (∀ (n : Nat) (s : BarrierSys n), BarrierReachable n s →
       s.guardedRuns ≤ 1
       ∧ (∀ r : Fin (n + 1), r ≠ 0 → s.pc r ≠ 0 → s.guardedRuns = 1)
       ∧ ((∀ r : Fin (n + 1), s.pc r = (rankProgram n r).length) →
          s.guardedRuns = 1))
    ∧ torch_distributed_zero_first (-1) = [BarrierAction.runGuarded] := by
  constructor
  · intro n s h
    obtain ⟨h1, h2, h3⟩ := barrierInv_reachable n h
    refine ⟨?_, ?_, ?_⟩
    · rw [h1]; split <;> omega
    · intro r hr hp
      have hsig := h3 r hr hp
      have h20 := h2.mp hsig
      rw [h1, if_neg (by omega)]
    · intro hall
      have h0 := hall 0
      rw [rankProgram_zero] at h0
      simp only [List.length] at h0
      rw [h1, if_neg (by omega)]
  · rfl

/-- Witness for C2 at a concrete input: a group of two ranks in which
rank 0 has run the guarded work and signalled and rank 1 has passed its
wait — the guarded work has run exactly once. -/
theorem zero_first_guarded_work_once_witness :
    ((((BarrierSys.init 1).apply 0 BarrierAction.runGuarded).apply 0
        BarrierAction.barrierSignal).apply 1
        BarrierAction.barrierWait).guardedRuns = 1 := by
  have hreach : BarrierReachable 1
      ((((BarrierSys.init 1).apply 0 BarrierAction.runGuarded).apply 0
          BarrierAction.barrierSignal).apply 1
          BarrierAction.barrierWait) := by
    have st1 : BarrierStep 1 (BarrierSys.init 1)
        ((BarrierSys.init 1).apply 0 BarrierAction.runGuarded) :=
      BarrierStep.mk _ 0 BarrierAction.runGuarded (by decide) (by decide)
    have st2 : BarrierStep 1
        ((BarrierSys.init 1).apply 0 BarrierAction.runGuarded)
        (((BarrierSys.init 1).apply 0 BarrierAction.runGuarded).apply 0
          BarrierAction.barrierSignal) :=
      BarrierStep.mk _ 0 BarrierAction.barrierSignal (by decide)
        (by decide)
    have st3 : BarrierStep 1
        (((BarrierSys.init 1).apply 0 BarrierAction.runGuarded).apply 0
          BarrierAction.barrierSignal)
        ((((BarrierSys.init 1).apply 0 BarrierAction.runGuarded).apply 0
            BarrierAction.barrierSignal).apply 1
            BarrierAction.barrierWait) :=
      BarrierStep.mk _ 1 BarrierAction.barrierWait (by decide) (by decide)
    exact Relation.ReflTransGen.tail
      (Relation.ReflTransGen.tail (Relation.ReflTransGen.single st1) st2)
      st3
  exact (zero_first_guarded_work_once.1 1 _ hreach).2.1 1 (by decide)
    (by decide)

end Spec2Proof
